import Mathlib

/-!
Shallow embedding of the bnetdiag backend's topology core (src/main.py).

The relational store (tables `ftth_devices` and `ftth_edges`) is modelled as
explicit lists of records; each endpoint of src/main.py that the claims touch
becomes a pure Lean function from the request parameters and the current store
to either an error (the HTTP error class the Python handler would map the
Oracle error to) or the new store.  Oracle's three-valued comparison on
nullable columns is modelled explicitly (`oraEq`, `oraNe`).
-/

namespace Bnetdiag

/-- A row of `ftth_devices` (the columns the core logic reads or writes;
descriptive inventory columns carried opaquely by the code are omitted). -/
structure Device where
  id : Nat
  name : Option String := none
  node_type : Option String := none
  sw_id : Option Nat := none
  area_id : Option Nat := none
  position_x : Option Int := none
  position_y : Option Int := none
  position_mode : Option Int := none
  deriving Repr, DecidableEq

/-- A row of `ftth_edges`.  `source_id` is nullable: `delete_device_by_id`
re-points children of a parentless device to NULL. -/
structure Edge where
  id : Nat
  source_id : Option Nat := none
  target_id : Nat
  link_type : Option String := none
  cable_color : Option String := none
  deriving Repr, DecidableEq

/-- The store: the two tables plus the two Oracle sequences
(`ftth_devices_sq`, `ftth_edges_sq`). -/
structure DB where
  devices : List Device
  edges : List Edge
  devSeq : Nat := 1
  edgeSeq : Nat := 1
  deriving Repr, DecidableEq

/-- The authenticated principal (auth.py `User`). -/
structure User where
  id : Nat
  role_id : Nat
  area_id : Option Nat := none
  deriving Repr, DecidableEq

/-- The error classes the FastAPI handlers map Oracle errors to:
403, 404, 409, 400, 500. -/
inductive ApiErr where
  | forbidden
  | notFound
  | conflict
  | badRequest
  | storeError
  deriving Repr, DecidableEq

/-- Oracle `=` on nullable columns: true only when both sides are non-NULL
and equal (NULL comparisons yield NULL, which an `IF` treats as not-true). -/
def oraEq (a b : Option Nat) : Bool :=
  match a, b with
  | some x, some y => x == y
  | _, _ => false

/-- Oracle `!=` on nullable columns: true only when both sides are non-NULL
and different. -/
def oraNe (a b : Option Nat) : Bool :=
  match a, b with
  | some x, some y => x != y
  | _, _ => false

/-- `SELECT ... FROM ftth_devices WHERE id = :i` (first matching row). -/
def findDevice (db : DB) (i : Nat) : Option Device :=
  db.devices.find? (fun d => d.id == i)

/-- `SELECT ... FROM ftth_edges WHERE target_id = :i FETCH FIRST 1 ROW ONLY`. -/
def firstIncoming (db : DB) (i : Nat) : Option Edge :=
  db.edges.find? (fun e => e.target_id == i)

/-- The scalar subquery `(SELECT e.source_id FROM ftth_edges e
WHERE e.target_id = d.id FETCH FIRST 1 ROW ONLY)`: NULL when no row exists. -/
def parentIdOf (db : DB) (i : Nat) : Option Nat :=
  match firstIncoming db i with
  | some e => e.source_id
  | none => none

/-- One step of the `CONNECT BY PRIOR d.id = (parent-of d)` ancestor chain:
`i` is in the hierarchy rooted at `rootId` when it is the root or its parent
is a device row that is itself in the hierarchy. -/
def chainToRoot (db : DB) (rootId : Nat) : Nat → Nat → Bool
  | 0, _ => false
  | fuel + 1, i =>
    i == rootId ||
      (match parentIdOf db i with
       | some p => (findDevice db p).isSome && chainToRoot db rootId fuel p
       | none => false)

/-- Membership in the `START WITH d.id = rootId CONNECT BY PRIOR d.id =
(first-incoming-edge source)` hierarchy used by the position-reset cascades
of `insert_node` and `delete_device_by_id` (src/main.py:694-702, 967-977). -/
def inSubtree (db : DB) (rootId i : Nat) : Bool :=
  chainToRoot db rootId (db.devices.length + db.edges.length + 1) i

/-- The guard `(position_mode IS NULL OR position_mode != 1)` that protects
manually pinned devices from cascade resets. -/
def notPinned (d : Device) : Bool :=
  !(d.position_mode == some 1)

/-- `node_type NOT IN ('PON', 'ONU')` (NULL `node_type` fails the predicate,
as in Oracle). -/
def notPonOnu (d : Device) : Bool :=
  match d.node_type with
  | some t => t != "PON" && t != "ONU"
  | none => false

/-- `SELECT id FROM ftth_devices WHERE node_type IN ('OLT','PON','ONU')
AND sw_id IS NOT NULL` — the devices of an active OLT-rooted system. -/
def activeSystemIds (db : DB) : List Nat :=
  (db.devices.filter (fun d =>
    (d.node_type == some "OLT" || d.node_type == some "PON" ||
      d.node_type == some "ONU") && !(d.sw_id == none))).map (fun d => d.id)

/-- The per-edge part of the general-view predicate:
`e.source_id IS NULL OR e.source_id NOT IN activeSystemIds`. -/
def rowSourceOk (db : DB) (e : Edge) : Bool :=
  match e.source_id with
  | none => true
  | some p => !((activeSystemIds db).contains p)

/-- Left-join row existence for the general view: the device has no incoming
edge at all (the joined edge columns are NULL) or some incoming edge whose
source is NULL or outside every active OLT system. -/
def leftJoinSourceOk (db : DB) (d : Device) : Bool :=
  !(db.edges.any (fun e => e.target_id == d.id)) ||
    db.edges.any (fun e => e.target_id == d.id && rowSourceOk db e)

/-- The general-view row predicate of `read_data` with no root
(src/main.py:576-584), without the area conjunct. -/
def generalViewPred (db : DB) (d : Device) : Bool :=
  notPonOnu d && leftJoinSourceOk db d && d.sw_id == none

/-- `GET /node-details/{node_id}` response payload. -/
structure NodeDetails where
  device : Device
  incoming_edges : List Edge
  outgoing_edges : List Edge
  deriving Repr, DecidableEq

/-- `get_node_details` (src/main.py:174-215): fetch the device row by id and
all its incoming and outgoing edges.  No role or area check appears in the
source; the principal is received but never consulted. -/
def get_node_details (user : User) (db : DB) (node_id : Nat) :
    Except ApiErr NodeDetails :=
  match findDevice db node_id with
  | none => .error .notFound
  | some d =>
    .ok { device := d,
          incoming_edges := db.edges.filter (fun e => e.target_id == node_id),
          outgoing_edges :=
            db.edges.filter (fun e => e.source_id == some node_id) }

/-- Pydantic `DeviceUpdate` under `exclude_unset=True`: an outer `none` means
the field was not in the payload; `some v` updates the column to `v`
(which may itself be NULL). -/
structure DeviceUpdate where
  name : Option (Option String) := none
  node_type : Option (Option String) := none
  sw_id : Option (Option Nat) := none
  area_id : Option (Option Nat) := none
  position_x : Option (Option Int) := none
  position_y : Option (Option Int) := none
  position_mode : Option (Option Int) := none
  deriving Repr, DecidableEq

/-- Apply the dynamic `UPDATE ftth_devices SET ...` clause of
`update_node_details` to one row. -/
def applyDeviceUpdate (u : DeviceUpdate) (d : Device) : Device :=
  { d with
    name := u.name.getD d.name,
    node_type := u.node_type.getD d.node_type,
    sw_id := u.sw_id.getD d.sw_id,
    area_id := u.area_id.getD d.area_id,
    position_x := u.position_x.getD d.position_x,
    position_y := u.position_y.getD d.position_y,
    position_mode := u.position_mode.getD d.position_mode }

/-- Pydantic `EdgeUpdate` under `exclude_unset=True, exclude={id}`. -/
structure EdgeUpdate where
  id : Nat
  link_type : Option (Option String) := none
  cable_color : Option (Option String) := none
  deriving Repr, DecidableEq

/-- Apply the dynamic `UPDATE ftth_edges SET ...` clause of
`update_node_details` to one row. -/
def applyEdgeUpdate (u : EdgeUpdate) (e : Edge) : Edge :=
  { e with
    link_type := u.link_type.getD e.link_type,
    cable_color := u.cable_color.getD e.cable_color }

/-- The `PUT /node-details/{node_id}` payload. -/
structure NodeDetailsUpdate where
  device_data : DeviceUpdate
  edges_to_update : List EdgeUpdate
  deriving Repr, DecidableEq

/-- `update_node_details` (src/main.py:222-272): update the device row with
id `node_id`, then each listed edge by its id.  No role or area check appears
in the source; a missing device simply updates zero rows and still succeeds. -/
def update_node_details (user : User) (db : DB) (node_id : Nat)
    (payload : NodeDetailsUpdate) : Except ApiErr DB :=
  let devices := db.devices.map (fun d =>
    if d.id == node_id then applyDeviceUpdate payload.device_data d else d)
  let edges := payload.edges_to_update.foldl
    (fun es u => es.map (fun e =>
      if e.id == u.id then applyEdgeUpdate u e else e))
    db.edges
  .ok { db with devices := devices, edges := edges }

/-- Modelled from the spec: the store enforces a uniqueness constraint over a
connection's endpoints — `create_edge` maps an ORA-00001 unique-constraint
violation to 409 "This connection already exists" (src/main.py:1163-1167),
but the table DDL itself is not under src/.  Per the spec's Conflict taxonomy
for connect, a second live edge with the same `(source_id, target_id)` pair
is rejected. -/
def edgeConnExists (db : DB) (s t : Nat) : Bool :=
  db.edges.any (fun e => e.source_id == some s && e.target_id == t)

/-- `create_edge` (src/main.py:1100-1176): look up both endpoint devices
(NO_DATA_FOUND → 404), require both areas to equal the principal's area
(`IF (v_source_area_id = :area_id AND v_target_area_id = :area_id)`),
insert one edge and clear the unpinned target's position. -/
def create_edge (user : User) (db : DB) (source_id target_id : Nat)
    (link_type cable_color : String) : Except ApiErr DB :=
  let lt := if link_type == "" then "Fiber Optic" else link_type
  let cc := if cable_color == "" then "#1e293b" else cable_color
  match findDevice db source_id with
  | none => .error .notFound
  | some s =>
    match findDevice db target_id with
    | none => .error .notFound
    | some t =>
      if oraEq s.area_id user.area_id && oraEq t.area_id user.area_id then
        if edgeConnExists db source_id target_id then
          .error .conflict
        else
          let e : Edge :=
            { id := db.edgeSeq, source_id := some source_id,
              target_id := target_id, link_type := some lt,
              cable_color := some cc }
          let devices := db.devices.map (fun d =>
            if d.id == target_id && notPinned d then
              { d with position_x := none, position_y := none,
                       position_mode := some 0 }
            else d)
          .ok { db with
                devices := devices, edges := db.edges ++ [e],
                edgeSeq := db.edgeSeq + 1 }
      else .error .forbidden

/-- `delete_edge_by_id` (src/main.py:1018-1097): find the edge by id
(else 404), check the SOURCE device's area with Oracle `!=` (a NULL on either
side raises nothing), delete the edge, and clear positions of the unpinned
source and target.  A NULL source id or a dangling source device makes the
inner `SELECT INTO` raise an unhandled NO_DATA_FOUND, which the handler maps
to 500. -/
def delete_edge_by_id (user : User) (db : DB) (edge_id : Nat) :
    Except ApiErr DB :=
  match db.edges.find? (fun e => e.id == edge_id) with
  | none => .error .notFound
  | some e =>
    match e.source_id with
    | none => .error .storeError
    | some sid =>
      match findDevice db sid with
      | none => .error .storeError
      | some s =>
        if oraNe s.area_id user.area_id then .error .forbidden
        else
          let edges := db.edges.filter (fun e2 => e2.id != edge_id)
          let devices := db.devices.map (fun d =>
            if (d.id == sid || d.id == e.target_id) && notPinned d then
              { d with position_x := none, position_y := none,
                       position_mode := some 0 }
            else d)
          .ok { db with devices := devices, edges := edges }

/-- `UPDATE ftth_edges SET source_id = :toId WHERE source_id = :fromId`. -/
def repointEdges (edges : List Edge) (fromId : Nat) (toId : Option Nat) :
    List Edge :=
  edges.map (fun e =>
    if e.source_id == some fromId then { e with source_id := toId } else e)

/-- Step 3 of `delete_device_by_id`: `UPDATE ftth_edges SET source_id =
v_parent_id WHERE source_id = :device_id_bv` — children re-pointed to the
deleted device's own (first) parent, which may be NULL. -/
def deleteStepEdges (db : DB) (device_id : Nat) : List Edge :=
  repointEdges db.edges device_id (parentIdOf db device_id)

/-- Step 4 of `delete_device_by_id`: when the parent is non-NULL, null the
positions of every unpinned device in the hierarchy rooted at the parent,
computed over the already re-pointed edge table. -/
def deleteStepDevices (db : DB) (device_id : Nat) : List Device :=
  match parentIdOf db device_id with
  | some p => db.devices.map (fun x : Device =>
      if inSubtree { db with edges := deleteStepEdges db device_id } p x.id &&
          notPinned x then
        { x with position_x := none, position_y := none }
      else x)
  | none => db.devices

/-- `delete_device_by_id` (src/main.py:931-1015): the first `SELECT area_id
INTO` raises NO_DATA_FOUND for a missing device, which no handler maps
("No node found" never matches ORA-01403), so the endpoint returns 500.
Otherwise: Oracle `!=` area check, re-point the device's children to its own
(first) parent, cascade a position reset over the parent's hierarchy when the
parent is non-NULL, and delete the device row (edges targeting it are removed
by the `ON DELETE CASCADE` constraint the code's comment documents). -/
def delete_device_by_id (user : User) (db : DB) (device_id : Nat) :
    Except ApiErr DB :=
  match findDevice db device_id with
  | none => .error .storeError
  | some d =>
    if oraNe d.area_id user.area_id then .error .forbidden
    else
      .ok { db with
            devices := (deleteStepDevices db device_id).filter
              (fun x => x.id != device_id),
            edges := (deleteStepEdges db device_id).filter
              (fun e => e.target_id != device_id) }

/-- The `new_node_data` payload fields of `POST /node/insert` that the
PL/SQL block binds. -/
structure NewNodeData where
  name : Option String := none
  node_type : Option String := none
  sw_id : Option Nat := none
  link_type : Option String := none
  cable_color : Option String := none
  position_x : Option Int := none
  position_y : Option Int := none
  deriving Repr, DecidableEq

/-- Step 3 of `insert_node`: the new device row, inheriting the original
source's `area_id`, with `position_mode` inserted as the literal 0. -/
def insertNewDevice (db : DB) (s : Device) (nd : NewNodeData) : Device :=
  { id := db.devSeq, name := nd.name, node_type := nd.node_type,
    sw_id := nd.sw_id, area_id := s.area_id,
    position_x := nd.position_x, position_y := nd.position_y,
    position_mode := some 0 }

/-- Step 4 of `insert_node`: the new edge original source → new device. -/
def insertNewEdge (db : DB) (original_source_id : Nat) (nd : NewNodeData) :
    Edge :=
  { id := db.edgeSeq, source_id := some original_source_id,
    target_id := db.devSeq, link_type := nd.link_type,
    cable_color := nd.cable_color }

/-- Steps 4-5 of `insert_node` on the edge table: insert the new edge, then
`UPDATE ftth_edges SET source_id = v_new_device_id WHERE source_id =
:original_source_id AND target_id = :original_edge_record_id`. -/
def insertStepEdges (db : DB)
    (original_source_id original_edge_record_id : Nat) (nd : NewNodeData) :
    List Edge :=
  (db.edges ++ [insertNewEdge db original_source_id nd]).map (fun e : Edge =>
    if e.source_id == some original_source_id &&
        e.target_id == original_edge_record_id then
      { e with source_id := some db.devSeq }
    else e)

/-- The store state after steps 3-5 of `insert_node`, over which the step-6
hierarchy is computed. -/
def insertMidDB (db : DB) (s : Device)
    (original_source_id original_edge_record_id : Nat) (nd : NewNodeData) :
    DB :=
  { db with
    devices := db.devices ++ [insertNewDevice db s nd],
    edges := insertStepEdges db original_source_id original_edge_record_id nd }

/-- Step 6 of `insert_node`: null the positions of the unpinned new device
and of every unpinned device in the hierarchy rooted at the original child. -/
def insertStepDevices (db : DB) (s : Device)
    (original_source_id original_edge_record_id : Nat) (nd : NewNodeData) :
    List Device :=
  (db.devices ++ [insertNewDevice db s nd]).map (fun x : Device =>
    if (x.id == db.devSeq ||
        inSubtree (insertMidDB db s original_source_id
          original_edge_record_id nd) original_edge_record_id x.id) &&
        notPinned x then
      { x with position_x := none, position_y := none }
    else x)

/-- `insert_node` (src/main.py:638-766): authorize the original source
(missing source → unhandled NO_DATA_FOUND → 500; area mismatch → 403 with no
write), insert the new device with the source's area and `position_mode = 0`,
insert the edge source → new device, retarget the edge
(source = original source, target = original child) to the new device, and
null the positions of the unpinned new device and of the unpinned hierarchy
rooted at the original child. -/
def insert_node (user : User) (db : DB)
    (original_source_id original_edge_record_id : Nat) (nd : NewNodeData) :
    Except ApiErr DB :=
  match findDevice db original_source_id with
  | none => .error .storeError
  | some s =>
    if oraEq s.area_id user.area_id then
      .ok { db with
            devices := insertStepDevices db s original_source_id
              original_edge_record_id nd,
            edges := insertStepEdges db original_source_id
              original_edge_record_id nd,
            devSeq := db.devSeq + 1, edgeSeq := db.edgeSeq + 1 }
    else .error .forbidden

/-- The `POST /positions/reset` request body. -/
structure PositionReset where
  sw_id : Option Nat := none
  scope : Option String := none
  node_id : Option Nat := none
  deriving Repr, DecidableEq

/-- Python truthiness of an `Optional[int]` (`if reset_request.node_id:`). -/
def truthyNat : Option Nat → Bool
  | some n => n != 0
  | none => false

/-- Python truthiness of an `Optional[str]` (`elif reset_request.scope:`). -/
def truthyStr : Option String → Bool
  | some s => s != ""
  | none => false

/-- The general-view clause of `reset_node_positions`
(src/main.py:438-451): `((NOT PON/ONU AND no incoming edge) OR id IN
(left-join subquery)) AND sw_id IS NULL`. -/
def resetGeneralClause (db : DB) (d : Device) : Bool :=
  ((notPonOnu d && !(db.edges.any (fun e => e.target_id == d.id))) ||
    (notPonOnu d && leftJoinSourceOk db d)) &&
  d.sw_id == none

/-- The row predicate assembled by `reset_node_positions` from the request,
given the principal's area (the WHERE clause of the UPDATE). -/
def resetWhere (db : DB) (ua : Nat) (req : PositionReset) (d : Device) :
    Bool :=
  d.area_id == some ua &&
    (if truthyNat req.node_id then
      d.id == req.node_id.getD 0
    else
      (match req.sw_id with
       | some s => d.sw_id == some s
       | none => resetGeneralClause db d) &&
      (if req.scope == some "manual" then d.position_mode == some 1
       else true))

/-- `reset_node_positions` (src/main.py:401-485): role must be 2 or 3 and the
area set; the UPDATE clears `position_x/y` and sets `position_mode = 0` for
every row matching the assembled WHERE clause — note that neither the
single-node branch nor `scope='all'` carries any pinning guard, and
`scope='manual'` targets exactly the pinned rows.  Returns the row count. -/
def reset_node_positions (user : User) (db : DB) (req : PositionReset) :
    Except ApiErr (DB × Nat) :=
  if user.role_id != 2 && user.role_id != 3 then .error .forbidden
  else
    match user.area_id with
    | none => .error .forbidden
    | some ua =>
      if truthyNat req.node_id || truthyStr req.scope then
        if truthyNat req.node_id ||
            req.scope == some "manual" || req.scope == some "all" then
          let devices := db.devices.map (fun d =>
            if resetWhere db ua req d then
              { d with position_x := none, position_y := none,
                       position_mode := some 0 }
            else d)
          .ok ({ db with devices := devices },
               (db.devices.filter (resetWhere db ua req)).length)
        else .error .badRequest
      else .error .badRequest

/-- The `PRIOR d.area_id = :user_area_id` condition: the prior row is the
device with id `p`, and its area must equal the caller's. -/
def priorAreaOk (db : DB) (ua : Nat) (p : Nat) : Bool :=
  match findDevice db p with
  | some pd => pd.area_id == some ua
  | none => false

/-- One `CONNECT BY` admission test of the `/data/{root}` query
(src/main.py:552-571): device `d` joins the hierarchy when some incoming edge
has its source in the current level set and that source device's area equals
the caller's (`CONNECT BY PRIOR d.id = e.source_id AND PRIOR d.area_id =
:user_area_id`). -/
def hierChildOk (db : DB) (ua : Nat) (s : List Nat) (d : Device) : Bool :=
  db.edges.any (fun e =>
    e.target_id == d.id &&
      (match e.source_id with
       | some p => s.contains p && priorAreaOk db ua p
       | none => false))

/-- Grow the hierarchy set by every device admitted from the current set. -/
def hierGrow (db : DB) (ua : Nat) (s : List Nat) : List Nat :=
  s ++ (db.devices.filter (fun d =>
    !(s.contains d.id) && hierChildOk db ua s d)).map (fun d => d.id)

/-- Iterate the hierarchy growth; `db.devices.length` rounds saturate it. -/
def hierClosure (db : DB) (ua : Nat) (start : List Nat) : Nat → List Nat
  | 0 => start
  | n + 1 => hierGrow db ua (hierClosure db ua start n)

/-- `START WITH d.id = :root_node_id_bv` — the root device rows. -/
def startRoot (db : DB) (root : Nat) : List Nat :=
  (db.devices.filter (fun d => d.id == root)).map (fun d => d.id)

/-- `START WITH e2.source_id IS NULL AND d2.sw_id = :root_node_id_bv AND
d2.area_id = :user_area_id` over the left join: a device of the root's
`sw_id` group in the caller's area whose joined incoming edge is absent or
has a NULL source. -/
def isOrphanStart (db : DB) (ua root : Nat) (d : Device) : Bool :=
  d.sw_id == some root && d.area_id == some ua &&
    (!(db.edges.any (fun e => e.target_id == d.id)) ||
      db.edges.any (fun e => e.target_id == d.id && e.source_id == none))

/-- The orphan-branch start set of the `/data/{root}` query. -/
def startOrphan (db : DB) (ua root : Nat) : List Nat :=
  (db.devices.filter (isOrphanStart db ua root)).map (fun d => d.id)

/-- The ids produced by the UNION of the two hierarchical branches of the
rooted `/data/{root}` query, before the outer area filter. -/
def treeMembers (db : DB) (ua root : Nat) : List Nat :=
  hierClosure db ua (startRoot db root) db.devices.length ++
    hierClosure db ua (startOrphan db ua root) db.devices.length

/-- `_check_node_ownership` (src/main.py:48-76) for a role-2/3 caller with a
set area: the row must exist and its area equal the caller's (Python `!=` on
the fetched value). -/
def ownershipOk (db : DB) (ua root : Nat) : Bool :=
  match findDevice db root with
  | some r => r.area_id == some ua
  | none => false

/-- `read_data` with a root (src/main.py:497-597): roles outside {2,3} get an
empty list; a caller with no area gets 403; the root is ownership-checked;
the result is every device in either hierarchical branch whose own area
equals the caller's. -/
def read_data (user : User) (db : DB) (root_node_id : Nat) :
    Except ApiErr (List Device) :=
  if user.role_id != 2 && user.role_id != 3 then .ok []
  else
    match user.area_id with
    | none => .error .forbidden
    | some ua =>
      if ownershipOk db ua root_node_id then
        .ok (db.devices.filter (fun d =>
          (treeMembers db ua root_node_id).contains d.id &&
            d.area_id == some ua))
      else .error .forbidden

/-- `read_data` with no root — the general view (src/main.py:573-584):
devices passing `generalViewPred` whose area equals the caller's. -/
def read_general_data (user : User) (db : DB) : Except ApiErr (List Device) :=
  if user.role_id != 2 && user.role_id != 3 then .ok []
  else
    match user.area_id with
    | none => .error .forbidden
    | some ua =>
      .ok (db.devices.filter (fun d =>
        generalViewPred db d && d.area_id == some ua))

/-! ## Inversion lemmas for the mutation operations -/

/-- Successful `create_edge` runs characterized: both endpoint lookups
succeeded, both areas matched, no duplicate connection existed, and the
result is the edge insertion plus the target position reset. -/
theorem create_edge_ok_inv {u : User} {db : DB} {s t : Nat} {lt cc : String}
    {db' : DB} (h : create_edge u db s t lt cc = .ok db') :
    ∃ sd td, findDevice db s = some sd ∧ findDevice db t = some td ∧
      (oraEq sd.area_id u.area_id && oraEq td.area_id u.area_id) = true ∧
      edgeConnExists db s t = false ∧
      db'.devices = db.devices.map (fun d =>
        if d.id == t && notPinned d then
          { d with position_x := none, position_y := none,
                   position_mode := some 0 }
        else d) ∧
      db'.edges = db.edges ++
        [{ id := db.edgeSeq, source_id := some s, target_id := t,
           link_type := some (if lt == "" then "Fiber Optic" else lt),
           cable_color := some (if cc == "" then "#1e293b" else cc) }] := by
  unfold create_edge at h
  rcases hfs : findDevice db s with _ | sd <;> rw [hfs] at h
  · simp at h
  dsimp only at h
  rcases hft : findDevice db t with _ | td <;> rw [hft] at h
  · simp at h
  dsimp only at h
  by_cases hauth : (oraEq sd.area_id u.area_id &&
      oraEq td.area_id u.area_id) = true
  · rw [if_pos hauth] at h
    by_cases hdup : edgeConnExists db s t = true
    · rw [if_pos hdup] at h; simp at h
    · rw [if_neg hdup] at h
      refine ⟨sd, td, rfl, rfl, hauth, by simpa using hdup, ?_, ?_⟩
      · cases h; rfl
      · cases h; rfl
  · rw [if_neg hauth] at h; simp at h

/-- Successful `delete_edge_by_id` runs characterized. -/
theorem delete_edge_ok_inv {u : User} {db : DB} {eid : Nat} {db' : DB}
    (h : delete_edge_by_id u db eid = .ok db') :
    ∃ e sid sd, db.edges.find? (fun e2 => e2.id == eid) = some e ∧
      e.source_id = some sid ∧ findDevice db sid = some sd ∧
      oraNe sd.area_id u.area_id = false ∧
      db'.devices = db.devices.map (fun d =>
        if (d.id == sid || d.id == e.target_id) && notPinned d then
          { d with position_x := none, position_y := none,
                   position_mode := some 0 }
        else d) ∧
      db'.edges = db.edges.filter (fun e2 => e2.id != eid) := by
  unfold delete_edge_by_id at h
  rcases hfe : db.edges.find? (fun e2 => e2.id == eid) with _ | e <;>
    rw [hfe] at h
  · simp at h
  dsimp only at h
  rcases hsrc : e.source_id with _ | sid <;> rw [hsrc] at h
  · simp at h
  dsimp only at h
  rcases hfs : findDevice db sid with _ | sd <;> rw [hfs] at h
  · simp at h
  dsimp only at h
  by_cases hne : oraNe sd.area_id u.area_id = true
  · rw [if_pos hne] at h; simp at h
  · rw [if_neg hne] at h
    refine ⟨e, sid, sd, hfe, hsrc, hfs, by simpa using hne, ?_, ?_⟩
    · cases h; rfl
    · cases h; rfl

/-- Successful `delete_device_by_id` runs characterized. -/
theorem delete_device_ok_inv {u : User} {db : DB} {i : Nat} {db' : DB}
    (h : delete_device_by_id u db i = .ok db') :
    ∃ d, findDevice db i = some d ∧ oraNe d.area_id u.area_id = false ∧
      db'.edges = (deleteStepEdges db i).filter (fun e => e.target_id != i) ∧
      db'.devices = (deleteStepDevices db i).filter (fun x => x.id != i) := by
  unfold delete_device_by_id at h
  rcases hfd : findDevice db i with _ | d <;> rw [hfd] at h
  · simp at h
  dsimp only at h
  by_cases hne : oraNe d.area_id u.area_id = true
  · rw [if_pos hne] at h; simp at h
  · rw [if_neg hne] at h
    refine ⟨d, rfl, by simpa using hne, ?_, ?_⟩
    · cases h; rfl
    · cases h; rfl

/-- Successful `insert_node` runs characterized. -/
theorem insert_node_ok_inv {u : User} {db : DB} {src tgt : Nat}
    {nd : NewNodeData} {db' : DB}
    (h : insert_node u db src tgt nd = .ok db') :
    ∃ sd, findDevice db src = some sd ∧
      oraEq sd.area_id u.area_id = true ∧
      db'.edges = insertStepEdges db src tgt nd ∧
      db'.devices = insertStepDevices db sd src tgt nd := by
  unfold insert_node at h
  rcases hfs : findDevice db src with _ | sd <;> rw [hfs] at h
  · simp at h
  dsimp only at h
  by_cases hauth : oraEq sd.area_id u.area_id = true
  · rw [if_pos hauth] at h
    refine ⟨sd, rfl, hauth, ?_, ?_⟩
    · cases h; rfl
    · cases h; rfl
  · rw [if_neg hauth] at h; simp at h

/-! ## Pinned-position preservation -/

/-- If a row transformation preserves ids and fixes every pinned row, then in
the mapped table any row carrying a pinned row's id is that row unchanged. -/
theorem map_fixes_pinned {l : List Device} {f : Device → Device}
    (hid : ∀ x, (f x).id = x.id)
    (hpin : ∀ x, x.position_mode = some 1 → f x = x)
    (hnodup : (l.map Device.id).Nodup) {d d' : Device} (hd : d ∈ l)
    (hmode : d.position_mode = some 1) (hd' : d' ∈ l.map f)
    (heq : d'.id = d.id) : d' = d := by
  obtain ⟨d0, hd0, rfl⟩ := List.mem_map.1 hd'
  have hdd : d0.id = d.id := by rw [← hid d0]; exact heq
  have : d0 = d := List.inj_on_of_nodup_map hnodup hd0 hd hdd
  subst this
  exact hpin d0 hmode

/-- A guarded position-and-mode clear preserves the id. -/
theorem clearPosMode_id (C : Device → Bool) (x : Device) :
    (if C x && notPinned x then
      { x with position_x := none, position_y := none,
               position_mode := some 0 }
    else x).id = x.id := by
  split <;> rfl

/-- A guarded position-and-mode clear fixes pinned rows. -/
theorem clearPosMode_pinned (C : Device → Bool) (x : Device)
    (hx : x.position_mode = some 1) :
    (if C x && notPinned x then
      { x with position_x := none, position_y := none,
               position_mode := some 0 }
    else x) = x := by
  rw [if_neg]
  simp [notPinned, hx]

/-- A guarded position clear preserves the id. -/
theorem clearPos_id (C : Device → Bool) (x : Device) :
    (if C x && notPinned x then
      { x with position_x := none, position_y := none }
    else x).id = x.id := by
  split <;> rfl

/-- A guarded position clear fixes pinned rows. -/
theorem clearPos_pinned (C : Device → Bool) (x : Device)
    (hx : x.position_mode = some 1) :
    (if C x && notPinned x then
      { x with position_x := none, position_y := none }
    else x) = x := by
  rw [if_neg]
  simp [notPinned, hx]

/-! ## Claim C1 -/

/-- Fixture: a manually placed (pinned) router. -/
def pinnedRouter : Device :=
  { id := 1, node_type := some "Router", area_id := some 5,
    position_x := some 10, position_y := some 20, position_mode := some 1 }

/-- Fixture: a role-2 principal of area 5. -/
def adminA : User := { id := 7, role_id := 2, area_id := some 5 }

/-- C1 counterexample: `reset_node_positions` with `scope = "manual"` clears
the position of a device whose `position_mode` is 1 — the reset operation,
included in the claim's "in any scope", does set a pinned node's `position_x`
and `position_y` to null (src/main.py:454-455 adds `position_mode = 1` to
the WHERE clause of an UPDATE that always nulls the position columns). -/
theorem C1_reset_clears_pinned_counterexample :
    pinnedRouter.position_mode = some 1 ∧
    pinnedRouter.position_x = some 10 ∧
    reset_node_positions adminA { devices := [pinnedRouter], edges := [] }
        { scope := some "manual" } =
      .ok ({ devices := [{ id := 1, node_type := some "Router",
                           area_id := some 5, position_x := none,
                           position_y := none, position_mode := some 0 }],
             edges := [] }, 1) := by
  refine ⟨rfl, rfl, ?_⟩
  rfl

/-- C1 amended: for every device with `position_mode = 1`, none of the four
structural mutations — connect (`create_edge`), disconnect
(`delete_edge_by_id`), delete (`delete_device_by_id`) and insert-between
(`insert_node`) — ever changes its `position_x` or `position_y` (in
particular never sets them to null); `reset_node_positions` is excluded,
since its single-node and `all` scopes carry no pinning guard and
`scope = "manual"` deliberately targets pinned rows. -/
theorem C1_amended_structural_mutations_preserve_pinned :
    (∀ (u : User) (db : DB) (s t : Nat) (lt cc : String) (db' : DB)
        (d d' : Device),
      (db.devices.map Device.id).Nodup →
      create_edge u db s t lt cc = .ok db' →
      d ∈ db.devices → d.position_mode = some 1 →
      d' ∈ db'.devices → d'.id = d.id →
      d'.position_x = d.position_x ∧ d'.position_y = d.position_y) ∧
    (∀ (u : User) (db : DB) (eid : Nat) (db' : DB) (d d' : Device),
      (db.devices.map Device.id).Nodup →
      delete_edge_by_id u db eid = .ok db' →
      d ∈ db.devices → d.position_mode = some 1 →
      d' ∈ db'.devices → d'.id = d.id →
      d'.position_x = d.position_x ∧ d'.position_y = d.position_y) ∧
    (∀ (u : User) (db : DB) (i : Nat) (db' : DB) (d d' : Device),
      (db.devices.map Device.id).Nodup →
      delete_device_by_id u db i = .ok db' →
      d ∈ db.devices → d.position_mode = some 1 →
      d' ∈ db'.devices → d'.id = d.id →
      d'.position_x = d.position_x ∧ d'.position_y = d.position_y) ∧
    (∀ (u : User) (db : DB) (src tgt : Nat) (nd : NewNodeData) (db' : DB)
        (d d' : Device),
      (db.devices.map Device.id).Nodup →
      (∀ x ∈ db.devices, x.id ≠ db.devSeq) →
      insert_node u db src tgt nd = .ok db' →
      d ∈ db.devices → d.position_mode = some 1 →
      d' ∈ db'.devices → d'.id = d.id →
      d'.position_x = d.position_x ∧ d'.position_y = d.position_y) := by
  refine ⟨?_, ?_, ?_, ?_⟩
  · intro u db s t lt cc db' d d' hnodup hok hd hmode hd' heq
    obtain ⟨sd, td, _, _, _, _, hdev, _⟩ := create_edge_ok_inv hok
    rw [hdev] at hd'
    have := map_fixes_pinned (clearPosMode_id (fun x => x.id == t))
      (clearPosMode_pinned (fun x => x.id == t)) hnodup hd hmode hd' heq
    rw [this]
    exact ⟨rfl, rfl⟩
  · intro u db eid db' d d' hnodup hok hd hmode hd' heq
    obtain ⟨e, sid, sd, _, _, _, _, hdev, _⟩ := delete_edge_ok_inv hok
    rw [hdev] at hd'
    have := map_fixes_pinned
      (clearPosMode_id (fun x => x.id == sid || x.id == e.target_id))
      (clearPosMode_pinned (fun x => x.id == sid || x.id == e.target_id))
      hnodup hd hmode hd' heq
    rw [this]
    exact ⟨rfl, rfl⟩
  · intro u db i db' d d' hnodup hok hd hmode hd' heq
    obtain ⟨dd, _, _, _, hdev⟩ := delete_device_ok_inv hok
    rw [hdev] at hd'
    have hd'2 : d' ∈ deleteStepDevices db i :=
      List.mem_of_mem_filter hd'
    unfold deleteStepDevices at hd'2
    rcases hp : parentIdOf db i with _ | p <;> rw [hp] at hd'2
    · have : d' = d := List.inj_on_of_nodup_map hnodup hd'2 hd heq
      rw [this]; exact ⟨rfl, rfl⟩
    · have := map_fixes_pinned
        (clearPos_id (fun x =>
          inSubtree { db with edges := deleteStepEdges db i } p x.id))
        (clearPos_pinned (fun x =>
          inSubtree { db with edges := deleteStepEdges db i } p x.id))
        hnodup hd hmode hd'2 heq
      rw [this]
      exact ⟨rfl, rfl⟩
  · intro u db src tgt nd db' d d' hnodup hfresh hok hd hmode hd' heq
    obtain ⟨sd, _, _, _, hdev⟩ := insert_node_ok_inv hok
    rw [hdev] at hd'
    unfold insertStepDevices at hd'
    have hnodup2 :
        (((db.devices ++ [insertNewDevice db sd nd]).map Device.id).Nodup) := by
      rw [List.map_append]
      rw [List.nodup_append]
      refine ⟨hnodup, by simp, ?_⟩
      intro a ha hb
      simp only [List.map_cons, List.map_nil, List.mem_singleton] at hb
      obtain ⟨x, hx, hxa⟩ := List.mem_map.1 ha
      subst hb
      exact hfresh x hx (by simpa [insertNewDevice] using hxa)
    have hdl : d ∈ db.devices ++ [insertNewDevice db sd nd] :=
      List.mem_append.2 (Or.inl hd)
    have := map_fixes_pinned
      (clearPos_id (fun x => x.id == db.devSeq ||
        inSubtree (insertMidDB db sd src tgt nd) tgt x.id))
      (clearPos_pinned (fun x => x.id == db.devSeq ||
        inSubtree (insertMidDB db sd src tgt nd) tgt x.id))
      hnodup2 hdl hmode hd' heq
    rw [this]
    exact ⟨rfl, rfl⟩

/-- Witness for the amended C1 theorem at a concrete run: a successful
`create_edge` between devices 2 and 3 leaves the pinned device 1
untouched. -/
theorem C1_amended_witness :
    pinnedRouter.position_x = pinnedRouter.position_x ∧
    pinnedRouter.position_y = pinnedRouter.position_y :=
  C1_amended_structural_mutations_preserve_pinned.1 adminA
    { devices := [pinnedRouter,
        { id := 2, area_id := some 5 }, { id := 3, area_id := some 5 }],
      edges := [], devSeq := 50, edgeSeq := 60 }
    2 3 "Fiber Optic" "#1e293b"
    { devices := [pinnedRouter,
        { id := 2, area_id := some 5 },
        { id := 3, area_id := some 5, position_mode := some 0 }],
      edges := [{ id := 60, source_id := some 2, target_id := 3,
                  link_type := some "Fiber Optic",
                  cable_color := some "#1e293b" }],
      devSeq := 50, edgeSeq := 61 }
    pinnedRouter pinnedRouter
    (by decide) rfl (by decide) rfl (by decide) rfl

/-! ## Claim C7 -/

/-- The single-parent (forest) property: no two edges share a target. -/
abbrev singleParent (db : DB) : Prop :=
  List.Pairwise (fun e1 e2 => e1.target_id ≠ e2.target_id) db.edges

/-- Fixture: a forest in which device 3 already has parent 1. -/
def dbForest : DB :=
  { devices := [{ id := 1, area_id := some 5 }, { id := 2, area_id := some 5 },
                { id := 3, area_id := some 5 }],
    edges := [{ id := 10, source_id := some 1, target_id := 3 }],
    devSeq := 100, edgeSeq := 11 }

/-- Fixture: `dbForest` after connecting 2 → 3 on top of the existing
parent 1 → 3. -/
def dbForestAfter : DB :=
  { devices := [{ id := 1, area_id := some 5 }, { id := 2, area_id := some 5 },
                { id := 3, area_id := some 5, position_mode := some 0 }],
    edges := [{ id := 10, source_id := some 1, target_id := 3 },
              { id := 11, source_id := some 2, target_id := 3,
                link_type := some "F", cable_color := some "c" }],
    devSeq := 100, edgeSeq := 12 }

/-- C7 counterexample: `create_edge` applied to a target that already has a
parent succeeds and yields a second incoming edge for device 3 — the
at-most-one-incoming-edge invariant is not preserved by connect
(src/main.py:1119-1131 inserts unconditionally, with no single-parent
check). -/
theorem C7_connect_breaks_forest_counterexample :
    singleParent dbForest ∧
    create_edge adminA dbForest 2 3 "F" "c" = .ok dbForestAfter ∧
    ¬ singleParent dbForestAfter := by
  refine ⟨by decide, rfl, by decide⟩

/-- C7 amended: the operations only preserve the at-most-one-incoming-edge
(forest) invariant when connect is applied to a target that has no incoming
edge; under that restriction a successful `create_edge` keeps the edge table
a forest. -/
theorem C7_amended_connect_preserves_forest_on_parentless_target
    (u : User) (db : DB) (s t : Nat) (lt cc : String) (db' : DB)
    (hforest : singleParent db)
    (hfree : ∀ e ∈ db.edges, e.target_id ≠ t)
    (hok : create_edge u db s t lt cc = .ok db') :
    singleParent db' := by
  obtain ⟨sd, td, _, _, _, _, _, hedges⟩ := create_edge_ok_inv hok
  rw [singleParent, hedges, List.pairwise_append]
  refine ⟨hforest, by simp, ?_⟩
  intro a ha b hb
  simp only [List.mem_singleton] at hb
  subst hb
  simpa using hfree a ha

/-- Witness for the amended C7 theorem: connecting 1 → 2 in `dbForest`
(device 2 has no parent) keeps the forest property. -/
theorem C7_amended_witness :
    singleParent
      { devices := [{ id := 1, area_id := some 5 },
                    { id := 2, area_id := some 5, position_mode := some 0 },
                    { id := 3, area_id := some 5 }],
        edges := [{ id := 10, source_id := some 1, target_id := 3 },
                  { id := 11, source_id := some 1, target_id := 2,
                    link_type := some "F", cable_color := some "c" }],
        devSeq := 100, edgeSeq := 12 } :=
  C7_amended_connect_preserves_forest_on_parentless_target adminA dbForest
    1 2 "F" "c" _ (by decide) (by decide) rfl

/-! ## Claim C2 -/

/-- Fixture: the connect source device, sharing `(name, sw_id)` with the
orphan below. -/
def srcDev : Device :=
  { id := 2, name := some "n", sw_id := some 7, area_id := some 5 }

/-- Fixture: a parentless (orphaned) record with the same `(name, sw_id)` as
`srcDev`. -/
def orphanDev : Device :=
  { id := 3, name := some "n", sw_id := some 7, area_id := some 5 }

/-- Fixture: store with a new parent 1, the source 2 and the orphan 3. -/
def dbOrphan : DB :=
  { devices := [{ id := 1, area_id := some 5 }, srcDev, orphanDev],
    edges := [], devSeq := 10, edgeSeq := 20 }

/-- Fixture: `dbOrphan` after `create_edge` 1 → 2. -/
def dbOrphanAfter : DB :=
  { devices := [{ id := 1, area_id := some 5 },
                { id := 2, name := some "n", sw_id := some 7,
                  area_id := some 5, position_mode := some 0 },
                orphanDev],
    edges := [{ id := 20, source_id := some 1, target_id := 2,
                link_type := some "F", cable_color := some "c" }],
    devSeq := 10, edgeSeq := 21 }

/-- C2 counterexample: connecting source 2 under new parent 1 while the
orphaned record 3 shares `(name, sw_id)` with the source does NOT update the
orphan's parent — `create_edge` (src/main.py:1100-1176) performs no orphan
lookup at all; the orphan row is untouched and still has no incoming edge
afterwards. -/
theorem C2_no_orphan_merge_counterexample :
    srcDev.name = orphanDev.name ∧ srcDev.sw_id = orphanDev.sw_id ∧
    (∀ e ∈ dbOrphan.edges, e.target_id ≠ orphanDev.id) ∧
    create_edge adminA dbOrphan 1 2 "F" "c" = .ok dbOrphanAfter ∧
    orphanDev ∈ dbOrphanAfter.devices ∧
    (∀ e ∈ dbOrphanAfter.edges, e.target_id ≠ orphanDev.id) := by
  refine ⟨rfl, rfl, by decide, rfl, by decide, by decide⟩

/-- Every device-row transformation applied by `create_edge` preserves the
identity triple `(id, name, sw_id)`. -/
theorem clearPosMode_identity (C : Device → Bool) (x : Device) :
    ((if C x && notPinned x then
        { x with position_x := none, position_y := none,
                 position_mode := some 0 }
      else x).id,
     (if C x && notPinned x then
        { x with position_x := none, position_y := none,
                 position_mode := some 0 }
      else x).name,
     (if C x && notPinned x then
        { x with position_x := none, position_y := none,
                 position_mode := some 0 }
      else x).sw_id) = (x.id, x.name, x.sw_id) := by
  split <;> rfl

/-- The transformation also preserves `area_id`. -/
theorem clearPosMode_area (C : Device → Bool) (x : Device) :
    (if C x && notPinned x then
      { x with position_x := none, position_y := none,
               position_mode := some 0 }
    else x).area_id = x.area_id := by
  split <;> rfl

/-- C2 amended: `create_edge` performs no orphan merge at all — a successful
connect inserts exactly one new edge from the parent to the child, changes no
device identity (the multiset of `(id, name, sw_id)` triples is unchanged, so
no duplicate `(name, sw_id)` row can arise from it), and a second connect
with the same `(source, target)` pair is rejected as Conflict because the
connection already exists. -/
theorem C2_amended_connect_inserts_edge_and_repeat_conflicts
    (u : User) (db : DB) (s t : Nat) (lt cc lt2 cc2 : String) (db' : DB)
    (hok : create_edge u db s t lt cc = .ok db') :
    db'.devices.map (fun d => (d.id, d.name, d.sw_id)) =
      db.devices.map (fun d => (d.id, d.name, d.sw_id)) ∧
    db'.edges = db.edges ++
      [{ id := db.edgeSeq, source_id := some s, target_id := t,
         link_type := some (if lt == "" then "Fiber Optic" else lt),
         cable_color := some (if cc == "" then "#1e293b" else cc) }] ∧
    create_edge u db' s t lt2 cc2 = .error .conflict := by
  obtain ⟨sd, td, hfs, hft, hauth, hdup, hdev, hedges⟩ := create_edge_ok_inv hok
  refine ⟨?_, hedges, ?_⟩
  · rw [hdev, List.map_map]
    apply List.map_congr_left
    intro x _
    exact clearPosMode_identity (fun x => x.id == t) x
  · have hpred : ∀ i : Nat, ((fun d : Device => d.id == i) ∘ (fun x : Device =>
        if x.id == t && notPinned x then
          { x with position_x := none, position_y := none,
                   position_mode := some 0 }
        else x)) = fun d : Device => d.id == i := by
      intro i
      funext x
      simp only [Function.comp_apply]
      rw [clearPosMode_id (fun x => x.id == t) x]
    have hfs' : findDevice db' s =
        (findDevice db s).map (fun x =>
          if x.id == t && notPinned x then
            { x with position_x := none, position_y := none,
                     position_mode := some 0 }
          else x) := by
      rw [findDevice, hdev, List.find?_map, hpred s]
      rfl
    have hft' : findDevice db' t =
        (findDevice db t).map (fun x =>
          if x.id == t && notPinned x then
            { x with position_x := none, position_y := none,
                     position_mode := some 0 }
          else x) := by
      rw [findDevice, hdev, List.find?_map, hpred t]
      rfl
    rw [hfs] at hfs'
    rw [hft] at hft'
    unfold create_edge
    rw [hfs', hft']
    dsimp only [Option.map_some']
    rw [clearPosMode_area (fun x => x.id == t) sd,
        clearPosMode_area (fun x => x.id == t) td]
    rw [if_pos hauth]
    have hconn : edgeConnExists db' s t = true := by
      rw [edgeConnExists, hedges, List.any_append]
      simp
    rw [if_pos hconn]

/-- Witness for the amended C2 theorem at the orphan fixture. -/
theorem C2_amended_witness :
    dbOrphanAfter.devices.map (fun d => (d.id, d.name, d.sw_id)) =
      dbOrphan.devices.map (fun d => (d.id, d.name, d.sw_id)) ∧
    dbOrphanAfter.edges = dbOrphan.edges ++
      [{ id := dbOrphan.edgeSeq, source_id := some 1, target_id := 2,
         link_type := some (if "F" == "" then "Fiber Optic" else "F"),
         cable_color := some (if "c" == "" then "#1e293b" else "c") }] ∧
    create_edge adminA dbOrphanAfter 1 2 "F2" "c2" = .error .conflict :=
  C2_amended_connect_inserts_edge_and_repeat_conflicts adminA dbOrphan
    1 2 "F" "c" "F2" "c2" dbOrphanAfter rfl

/-! ## Claim C4 -/

/-- Fixture: an edge whose source is in the caller's area 5 but whose target
is in a foreign area 6. -/
def dbCross : DB :=
  { devices := [{ id := 1, area_id := some 5 }, { id := 2, area_id := some 6 }],
    edges := [{ id := 10, source_id := some 1, target_id := 2 }],
    devSeq := 1, edgeSeq := 11 }

/-- Fixture: `dbCross` after the cross-area disconnect succeeded. -/
def dbCrossAfter : DB :=
  { devices := [{ id := 1, area_id := some 5, position_mode := some 0 },
                { id := 2, area_id := some 6, position_mode := some 0 }],
    edges := [], devSeq := 1, edgeSeq := 11 }

/-- C4 counterexample: disconnect (`delete_edge_by_id`, src/main.py:1018-1097)
checks only the SOURCE endpoint's area.  With the target in foreign area 6,
the area-5 principal's disconnect succeeds and mutates the store (the edge is
deleted and both endpoint positions are reset), instead of failing closed
with Forbidden as the claim requires for both endpoints. -/
theorem C4_disconnect_ignores_target_area_counterexample :
    adminA.area_id = some 5 ∧
    findDevice dbCross 2 = some { id := 2, area_id := some 6 } ∧
    delete_edge_by_id adminA dbCross 10 = .ok dbCrossAfter ∧
    dbCrossAfter.edges = [] ∧ dbCrossAfter ≠ dbCross := by
  refine ⟨rfl, by decide, rfl, rfl, by decide⟩

/-- C4 amended: connect (`create_edge`) requires both endpoints' areas to
equal the principal's and fails closed with Forbidden (no store mutation —
the error return carries no state) when either check fails; disconnect
(`delete_edge_by_id`) checks only the source endpoint: it fails closed with
Forbidden when the source's area differs from the principal's (both
non-null), but the target's area is never consulted. -/
theorem C4_amended_area_checks :
    (∀ (u : User) (db : DB) (s t : Nat) (lt cc : String) (sd td : Device),
      findDevice db s = some sd → findDevice db t = some td →
      (oraEq sd.area_id u.area_id = false ∨
        oraEq td.area_id u.area_id = false) →
      create_edge u db s t lt cc = .error .forbidden) ∧
    (∀ (u : User) (db : DB) (eid sid : Nat) (e : Edge) (sd : Device),
      db.edges.find? (fun e2 => e2.id == eid) = some e →
      e.source_id = some sid → findDevice db sid = some sd →
      oraNe sd.area_id u.area_id = true →
      delete_edge_by_id u db eid = .error .forbidden) := by
  constructor
  · intro u db s t lt cc sd td hfs hft hbad
    unfold create_edge
    rw [hfs]
    dsimp only
    rw [hft]
    dsimp only
    rw [if_neg]
    simp only [Bool.and_eq_true, not_and]
    intro h1 h2
    rcases hbad with h | h
    · rw [h] at h1; cases h1
    · rw [h] at h2; cases h2
  · intro u db eid sid e sd hfe hsrc hfsd hne
    unfold delete_edge_by_id
    rw [hfe]
    dsimp only
    rw [hsrc]
    dsimp only
    rw [hfsd]
    dsimp only
    rw [if_pos hne]

/-- Witness for the amended C4 theorem: in `dbCross`, connecting 1 → 2 is
rejected as Forbidden because the target's area 6 differs from the
principal's area 5. -/
theorem C4_amended_witness :
    create_edge adminA dbCross 1 2 "F" "c" = .error .forbidden :=
  C4_amended_area_checks.1 adminA dbCross 1 2 "F" "c"
    { id := 1, area_id := some 5 } { id := 2, area_id := some 6 }
    (by decide) (by decide) (Or.inr (by decide))

/-! ## Claim C9 -/

/-- C9: a delete aimed at an id matching no device row returns the opaque
store-error class (HTTP 500), not NotFound — in src/main.py:941-944 the
`SELECT area_id INTO` raises NO_DATA_FOUND (ORA-01403, "no data found"),
which matches neither the "Permission denied" nor the "No node found"
substring the handler looks for, so the dedicated 404 branch written for
this case (src/main.py:1010-1011) is unreachable. -/
theorem C9_missing_delete_is_store_error :
    delete_device_by_id adminA { devices := [], edges := [] } 999 =
      .error .storeError ∧
    ApiErr.storeError ≠ ApiErr.notFound := by
  exact ⟨rfl, by decide⟩

/-! ## Claim C10 -/

/-- C10: the node-details read and update endpoints perform no role or area
authorization: their results are identical for any two authenticated
principals (the user argument is never consulted), `get_node_details`
returns the device and all its incoming and outgoing edges whenever the node
exists regardless of the principal's role or (possibly null) area, updates
always apply and succeed, and neither endpoint can return Forbidden. -/
theorem C10_node_details_no_authorization :
    (∀ (u1 u2 : User) (db : DB) (n : Nat),
      get_node_details u1 db n = get_node_details u2 db n) ∧
    (∀ (u1 u2 : User) (db : DB) (n : Nat) (pl : NodeDetailsUpdate),
      update_node_details u1 db n pl = update_node_details u2 db n pl) ∧
    (∀ (u : User) (db : DB) (n : Nat) (d : Device),
      findDevice db n = some d →
      get_node_details u db n = .ok
        { device := d,
          incoming_edges := db.edges.filter (fun e => e.target_id == n),
          outgoing_edges :=
            db.edges.filter (fun e => e.source_id == some n) }) ∧
    (∀ (u : User) (db : DB) (n : Nat) (pl : NodeDetailsUpdate),
      update_node_details u db n pl = .ok
        { db with
          devices := db.devices.map (fun d =>
            if d.id == n then applyDeviceUpdate pl.device_data d else d),
          edges := pl.edges_to_update.foldl
            (fun es u2 => es.map (fun e =>
              if e.id == u2.id then applyEdgeUpdate u2 e else e))
            db.edges }) ∧
    (∀ (u : User) (db : DB) (n : Nat) (pl : NodeDetailsUpdate),
      get_node_details u db n ≠ .error .forbidden ∧
      update_node_details u db n pl ≠ .error .forbidden) := by
  refine ⟨fun u1 u2 db n => rfl, fun u1 u2 db n pl => rfl, ?_, ?_, ?_⟩
  · intro u db n d hfd
    unfold get_node_details
    rw [hfd]
  · intro u db n pl
    rfl
  · intro u db n pl
    constructor
    · unfold get_node_details
      cases findDevice db n <;> simp
    · simp [update_node_details]

/-- Witness for C10 on a concrete store: any principal, even one with a null
area and an unprivileged role, reads device 1 of area 9 with its edges. -/
theorem C10_witness :
    get_node_details { id := 4, role_id := 7, area_id := none }
        { devices := [{ id := 1, area_id := some 9 }],
          edges := [{ id := 2, source_id := some 1, target_id := 1 }] } 1 =
      .ok { device := { id := 1, area_id := some 9 },
            incoming_edges := [{ id := 2, source_id := some 1,
                                 target_id := 1 }],
            outgoing_edges := [{ id := 2, source_id := some 1,
                                 target_id := 1 }] } :=
  C10_node_details_no_authorization.2.2.1
    { id := 4, role_id := 7, area_id := none }
    { devices := [{ id := 1, area_id := some 9 }],
      edges := [{ id := 2, source_id := some 1, target_id := 1 }] } 1
    { id := 1, area_id := some 9 } (by decide)

/-! ## Claim C6 -/

/-- Fixture: a sibling-to-be of the spliced-in device — a child of the
original source, distinct from the original target, with set positions. -/
def sibDev : Device :=
  { id := 3, area_id := some 5, position_x := some 7, position_y := some 8 }

/-- Fixture: source 1 with children 2 (the splice target) and 3. -/
def dbSib : DB :=
  { devices := [{ id := 1, area_id := some 5 }, { id := 2, area_id := some 5 },
                sibDev],
    edges := [{ id := 20, source_id := some 1, target_id := 2 },
              { id := 21, source_id := some 1, target_id := 3 }],
    devSeq := 100, edgeSeq := 50 }

/-- Fixture: `dbSib` after inserting device 100 between 1 and 2. -/
def dbSibAfter : DB :=
  { devices := [{ id := 1, area_id := some 5 }, { id := 2, area_id := some 5 },
                sibDev,
                { id := 100, area_id := some 5, position_mode := some 0 }],
    edges := [{ id := 20, source_id := some 100, target_id := 2 },
              { id := 21, source_id := some 1, target_id := 3 },
              { id := 50, source_id := some 1, target_id := 100 }],
    devSeq := 101, edgeSeq := 51 }

/-- C6 counterexample: inserting a new device between 1 and 2 does NOT reset
the positions of the new device's current siblings — device 3, an unpinned
child of source 1, keeps `position_x/y = 7/8`; the step-6 UPDATE of
src/main.py:689-703 touches only the new device and the hierarchy rooted at
the original child. -/
theorem C6_sibling_not_reset_counterexample :
    ({ id := 21, source_id := some 1, target_id := 3 } : Edge) ∈
      dbSib.edges ∧
    sibDev ∈ dbSib.devices ∧ notPinned sibDev = true ∧
    insert_node adminA dbSib 1 2 {} = .ok dbSibAfter ∧
    sibDev ∈ dbSibAfter.devices ∧ sibDev.position_x = some 7 ∧
    sibDev.position_y = some 8 := by
  refine ⟨by decide, by decide, rfl, rfl, by decide, rfl, rfl⟩

/-- C6 amended: a successful `insert_node` creates the new device inheriting
`area_id` from the original source, adds the edge source → new device,
retargets the (source, original child) edge to read new device → child, and
resets positions only for the unpinned new device and the unpinned hierarchy
rooted at the original child — current siblings of the new device are NOT
reset; if the source's area check fails, the whole insert is rejected with
Forbidden and nothing is spliced (the error return carries no state). -/
theorem C6_amended_insert_between :
    (∀ (u : User) (db : DB) (src tgt : Nat) (nd : NewNodeData) (db' : DB),
      insert_node u db src tgt nd = .ok db' → tgt ≠ db.devSeq →
      ∃ sd, findDevice db src = some sd ∧
        oraEq sd.area_id u.area_id = true ∧
        ({ id := db.edgeSeq, source_id := some src, target_id := db.devSeq,
           link_type := nd.link_type, cable_color := nd.cable_color } :
          Edge) ∈ db'.edges ∧
        (∀ e ∈ db.edges, e.source_id = some src → e.target_id = tgt →
          { e with source_id := some db.devSeq } ∈ db'.edges) ∧
        (∀ e ∈ db.edges, ¬(e.source_id = some src ∧ e.target_id = tgt) →
          e ∈ db'.edges) ∧
        ({ id := db.devSeq, name := nd.name, node_type := nd.node_type,
           sw_id := nd.sw_id, area_id := sd.area_id, position_x := none,
           position_y := none, position_mode := some 0 } : Device) ∈
          db'.devices ∧
        (∀ x ∈ db.devices,
          inSubtree (insertMidDB db sd src tgt nd) tgt x.id = true →
          notPinned x = true →
          { x with position_x := none, position_y := none } ∈
            db'.devices)) ∧
    (∀ (u : User) (db : DB) (src tgt : Nat) (nd : NewNodeData)
        (sd : Device),
      findDevice db src = some sd →
      oraEq sd.area_id u.area_id = false →
      insert_node u db src tgt nd = .error .forbidden) := by
  constructor
  · intro u db src tgt nd db' hok htfresh
    obtain ⟨sd, hfs, hauth, hedges, hdevs⟩ := insert_node_ok_inv hok
    refine ⟨sd, hfs, hauth, ?_, ?_, ?_, ?_, ?_⟩
    · rw [hedges, insertStepEdges]
      refine List.mem_map.2 ⟨insertNewEdge db src nd, by simp, ?_⟩
      rw [if_neg]
      · rfl
      · intro hcontra
        simp only [insertNewEdge, Bool.and_eq_true, beq_iff_eq] at hcontra
        exact htfresh hcontra.2.symm
    · intro e he hesrc hetgt
      rw [hedges, insertStepEdges]
      refine List.mem_map.2 ⟨e, List.mem_append.2 (Or.inl he), ?_⟩
      rw [if_pos]
      simp [hesrc, hetgt]
    · intro e he hnot
      rw [hedges, insertStepEdges]
      refine List.mem_map.2 ⟨e, List.mem_append.2 (Or.inl he), ?_⟩
      rw [if_neg]
      simp only [Bool.and_eq_true, beq_iff_eq, not_and]
      intro h1 h2
      exact hnot ⟨h1, h2⟩
    · rw [hdevs, insertStepDevices]
      refine List.mem_map.2 ⟨insertNewDevice db sd nd, by simp, ?_⟩
      rw [if_pos]
      · rfl
      · simp [insertNewDevice, notPinned]
    · intro x hx hsub hnp
      rw [hdevs, insertStepDevices]
      refine List.mem_map.2 ⟨x, List.mem_append.2 (Or.inl hx), ?_⟩
      rw [if_pos]
      rw [hsub, hnp]
      simp
  · intro u db src tgt nd sd hfs hbad
    unfold insert_node
    rw [hfs]
    dsimp only
    rw [if_neg]
    rw [hbad]
    simp

/-- Witness for the amended C6 theorem at the sibling fixture. -/
theorem C6_amended_witness :
    ∃ sd, findDevice dbSib 1 = some sd ∧
      oraEq sd.area_id adminA.area_id = true ∧
      ({ id := dbSib.edgeSeq, source_id := some 1,
         target_id := dbSib.devSeq, link_type := none,
         cable_color := none } : Edge) ∈ dbSibAfter.edges ∧
      (∀ e ∈ dbSib.edges, e.source_id = some 1 → e.target_id = 2 →
        { e with source_id := some dbSib.devSeq } ∈ dbSibAfter.edges) ∧
      (∀ e ∈ dbSib.edges, ¬(e.source_id = some 1 ∧ e.target_id = 2) →
        e ∈ dbSibAfter.edges) ∧
      ({ id := dbSib.devSeq, name := none, node_type := none,
         sw_id := none, area_id := sd.area_id, position_x := none,
         position_y := none, position_mode := some 0 } : Device) ∈
        dbSibAfter.devices ∧
      (∀ x ∈ dbSib.devices,
        inSubtree (insertMidDB dbSib sd 1 2 {}) 2 x.id = true →
        notPinned x = true →
        { x with position_x := none, position_y := none } ∈
          dbSibAfter.devices) :=
  C6_amended_insert_between.1 adminA dbSib 1 2 {} dbSibAfter rfl (by decide)

/-! ## Claim C3 -/

/-- C3: deleting a device B whose (first) incoming edge comes from parent A
re-points every edge out of B to A (so for a chain A→B→C the edge A→C
results), cascades a position reset over A's hierarchy computed on the
re-pointed edges — sparing pinned rows, which survive unchanged — and
removes B's device row. -/
theorem C3_delete_splices_and_resets
    (u : User) (db : DB) (bid aid : Nat) (e0 : Edge) (db' : DB)
    (hfe : firstIncoming db bid = some e0)
    (hsrc : e0.source_id = some aid)
    (hok : delete_device_by_id u db bid = .ok db') :
    (∀ e ∈ db.edges, e.source_id = some bid → e.target_id ≠ bid →
      { e with source_id := some aid } ∈ db'.edges) ∧
    (∀ x ∈ db.devices, x.id ≠ bid → notPinned x = true →
      inSubtree { db with edges := deleteStepEdges db bid } aid x.id = true →
      { x with position_x := none, position_y := none } ∈ db'.devices) ∧
    (∀ x ∈ db.devices, x.position_mode = some 1 → x.id ≠ bid →
      x ∈ db'.devices) ∧
    (∀ x ∈ db'.devices, x.id ≠ bid) := by
  obtain ⟨d, hfd, hareaOk, hE, hD⟩ := delete_device_ok_inv hok
  have hpar : parentIdOf db bid = some aid := by
    rw [parentIdOf, hfe]; exact hsrc
  have hDS : deleteStepDevices db bid = db.devices.map (fun x : Device =>
      if inSubtree { db with edges := deleteStepEdges db bid } aid x.id &&
          notPinned x then
        { x with position_x := none, position_y := none }
      else x) := by
    rw [deleteStepDevices, hpar]
  refine ⟨?_, ?_, ?_, ?_⟩
  · intro e he hes het
    rw [hE]
    refine List.mem_filter.2 ⟨?_, by simpa using het⟩
    rw [deleteStepEdges, hpar]
    refine List.mem_map.2 ⟨e, he, ?_⟩
    rw [if_pos (by simp [hes])]
  · intro x hx hxid hnp hsub
    rw [hD, hDS]
    refine List.mem_filter.2 ⟨?_, by simpa using hxid⟩
    refine List.mem_map.2 ⟨x, hx, ?_⟩
    rw [if_pos (by rw [hsub, hnp]; rfl)]
  · intro x hx hmode hxid
    rw [hD, hDS]
    refine List.mem_filter.2 ⟨?_, by simpa using hxid⟩
    refine List.mem_map.2 ⟨x, hx, ?_⟩
    rw [if_neg]
    simp [notPinned, hmode]
  · intro x hx
    rw [hD] at hx
    simpa using (List.mem_filter.1 hx).2

/-- Fixture: the chain A(1) → B(2) → C(3), all in area 5. -/
def dbChain : DB :=
  { devices := [{ id := 1, area_id := some 5 },
                { id := 2, area_id := some 5, position_x := some 3,
                  position_y := some 4 },
                { id := 3, area_id := some 5, position_x := some 7,
                  position_y := some 8 }],
    edges := [{ id := 10, source_id := some 1, target_id := 2 },
              { id := 11, source_id := some 2, target_id := 3 }],
    devSeq := 100, edgeSeq := 100 }

/-- Fixture: `dbChain` after deleting B(2): the edge 11 now reads 1 → 3 and
A's and C's positions were reset. -/
def dbChainAfter : DB :=
  { devices := [{ id := 1, area_id := some 5 },
                { id := 3, area_id := some 5 }],
    edges := [{ id := 11, source_id := some 1, target_id := 3 }],
    devSeq := 100, edgeSeq := 100 }

/-- Witness for C3 on the chain fixture: deleting B(2) from A→B→C yields the
spliced edge A→C, resets C, and leaves no row with B's id. -/
theorem C3_witness :
    (∀ e ∈ dbChain.edges, e.source_id = some 2 → e.target_id ≠ 2 →
      { e with source_id := some 1 } ∈ dbChainAfter.edges) ∧
    (∀ x ∈ dbChain.devices, x.id ≠ 2 → notPinned x = true →
      inSubtree { dbChain with edges := deleteStepEdges dbChain 2 } 1 x.id =
        true →
      { x with position_x := none, position_y := none } ∈
        dbChainAfter.devices) ∧
    (∀ x ∈ dbChain.devices, x.position_mode = some 1 → x.id ≠ 2 →
      x ∈ dbChainAfter.devices) ∧
    (∀ x ∈ dbChainAfter.devices, x.id ≠ 2) :=
  C3_delete_splices_and_resets adminA dbChain 2 1
    { id := 10, source_id := some 1, target_id := 2 } dbChainAfter
    (by decide) rfl rfl

/-! ## Claim C8 -/

/-- Spec wording: an OLT/PON/ONU-typed device with a non-null `sw_id`
(part of an active OLT-rooted system). -/
def ActiveTyped (d : Device) : Prop :=
  (d.node_type = some "OLT" ∨ d.node_type = some "PON" ∨
    d.node_type = some "ONU") ∧ d.sw_id ≠ none

/-- Spec wording: the device's node type exists and is not a leaf (PON/ONU)
type. -/
def NotLeafTyped (d : Device) : Prop :=
  ∃ t, d.node_type = some t ∧ t ≠ "PON" ∧ t ≠ "ONU"

/-- Spec wording: the device's parent is absent — every incoming edge (if
any) carries no source. -/
def ParentAbsent (db : DB) (d : Device) : Prop :=
  ∀ e ∈ db.edges, e.target_id = d.id → e.source_id = none

/-- Spec wording: the device's parent is not an OLT/PON/ONU-typed device
with a non-null `sw_id`. -/
def ParentNotActive (db : DB) (d : Device) : Prop :=
  ∀ e ∈ db.edges, e.target_id = d.id → ∀ p, e.source_id = some p →
    ∀ pd ∈ db.devices, pd.id = p → ¬ ActiveTyped pd

/-- The claim's general-view predicate, written from its words: node type not
PON/ONU, parent absent or not part of an active OLT system, own `sw_id`
null. -/
def GeneralViewSpec (db : DB) (d : Device) : Prop :=
  NotLeafTyped d ∧ (ParentAbsent db d ∨ ParentNotActive db d) ∧
    d.sw_id = none

theorem notPonOnu_iff (d : Device) :
    notPonOnu d = true ↔ NotLeafTyped d := by
  rw [notPonOnu, NotLeafTyped]
  rcases d.node_type with _ | t <;> simp

theorem mem_activeSystemIds (db : DB) (p : Nat) :
    p ∈ activeSystemIds db ↔ ∃ pd ∈ db.devices, pd.id = p ∧ ActiveTyped pd := by
  rw [activeSystemIds]
  simp only [List.mem_map, List.mem_filter, ActiveTyped, Bool.and_eq_true,
    Bool.or_eq_true, beq_iff_eq, Bool.not_eq_true', beq_eq_false_iff_ne]
  constructor
  · rintro ⟨pd, ⟨hmem, htype, hsw⟩, hid⟩
    exact ⟨pd, hmem, hid, by tauto, hsw⟩
  · rintro ⟨pd, hmem, hid, htype, hsw⟩
    exact ⟨pd, ⟨hmem, by tauto, hsw⟩, hid⟩

/-- In a forest, two edges with a common target are equal. -/
theorem singleParent_unique {db : DB} (h : singleParent db) {e e' : Edge}
    (he : e ∈ db.edges) (he' : e' ∈ db.edges)
    (ht : e.target_id = e'.target_id) : e = e' := by
  by_contra hne
  exact (h.forall (fun a b hab => (hab ∘ Eq.symm)) he he' hne) ht

/-- Under the forest invariant, the code's left-join predicate coincides with
the claim's "parent absent or not active" wording. -/
theorem leftJoinSourceOk_iff {db : DB} (hforest : singleParent db)
    (d : Device) :
    leftJoinSourceOk db d = true ↔
      ParentAbsent db d ∨ ParentNotActive db d := by
  rw [leftJoinSourceOk]
  simp only [Bool.or_eq_true, Bool.not_eq_true', List.any_eq_false,
    List.any_eq_true, Bool.and_eq_true, beq_iff_eq]
  constructor
  · rintro (hnone | ⟨e, he, htgt, hok⟩)
    · exact Or.inl (fun e he htgt => absurd htgt (hnone e he))
    · rw [rowSourceOk] at hok
      rcases hsrc : e.source_id with _ | p <;> rw [hsrc] at hok
      · refine Or.inl ?_
        intro e' he' htgt'
        have : e' = e := singleParent_unique hforest he' he (by rw [htgt, htgt'])
        rw [this, hsrc]
      · refine Or.inr ?_
        intro e' he' htgt' p' hsrc' pd hpd hpid hact
        have he'e : e' = e := singleParent_unique hforest he' he
          (by rw [htgt, htgt'])
        rw [he'e, hsrc] at hsrc'
        have hpp : p' = p := (Option.some.inj hsrc').symm
        subst hpp
        have hnotmem : p' ∉ activeSystemIds db := by simpa using hok
        exact hnotmem ((mem_activeSystemIds db p').2 ⟨pd, hpd, hpid, hact⟩)
  · intro hspec
    by_cases hinc : ∀ e ∈ db.edges, ¬ e.target_id = d.id
    · exact Or.inl hinc
    · push_neg at hinc
      obtain ⟨e, he, htgt⟩ := hinc
      refine Or.inr ⟨e, he, htgt, ?_⟩
      rw [rowSourceOk]
      rcases hsrc : e.source_id with _ | p
      · rfl
      · rcases hspec with habs | hact
        · have := habs e he htgt
          rw [hsrc] at this
          cases this
        · have hnotmem : p ∉ activeSystemIds db := by
            intro hmem'
            obtain ⟨pd, hpd, hpid, hactive⟩ :=
              (mem_activeSystemIds db p).1 hmem'
            exact hact e he htgt p hsrc pd hpd hpid hactive
          simpa using hnotmem

/-- C8: with a root-less query, a role-2/3 caller with area `ua` receives
exactly the devices satisfying the claim's general-view predicate
intersected with the caller's area; in particular no returned device has a
non-null `sw_id` or a PON/ONU node type. -/
theorem C8_general_view_exact (u : User) (db : DB) (ua : Nat)
    (hrole : u.role_id = 2 ∨ u.role_id = 3) (harea : u.area_id = some ua)
    (hforest : singleParent db) :
    ∃ l, read_general_data u db = .ok l ∧
      (∀ d, d ∈ l ↔
        d ∈ db.devices ∧ GeneralViewSpec db d ∧ d.area_id = some ua) ∧
      (∀ d ∈ l, d.sw_id = none ∧ d.node_type ≠ some "PON" ∧
        d.node_type ≠ some "ONU" ∧ d.area_id = some ua) := by
  have hrole' : (u.role_id != 2 && u.role_id != 3) = false := by
    rcases hrole with h | h <;> simp [h]
  refine ⟨db.devices.filter (fun d =>
    generalViewPred db d && d.area_id == some ua), ?_, ?_, ?_⟩
  · rw [read_general_data, if_neg (by simp [hrole']), harea]
  · intro d
    rw [List.mem_filter]
    simp only [Bool.and_eq_true, beq_iff_eq]
    rw [generalViewPred]
    simp only [Bool.and_eq_true, beq_iff_eq]
    rw [notPonOnu_iff, leftJoinSourceOk_iff hforest, GeneralViewSpec]
    tauto
  · intro d hd
    rw [List.mem_filter] at hd
    obtain ⟨hmem, hcond⟩ := hd
    simp only [Bool.and_eq_true, beq_iff_eq] at hcond
    rw [generalViewPred] at hcond
    simp only [Bool.and_eq_true, beq_iff_eq] at hcond
    obtain ⟨⟨⟨htype, _⟩, hsw⟩, harea'⟩ := hcond
    rw [notPonOnu_iff] at htype
    obtain ⟨t, hts, htp, hto⟩ := htype
    refine ⟨hsw, ?_, ?_, harea'⟩
    · rw [hts]
      intro hc
      exact htp (Option.some.inj hc)
    · rw [hts]
      intro hc
      exact hto (Option.some.inj hc)

/-- Witness for C8: a store with a router (qualifies), a PON device and an
OLT-subsumed child (both excluded). -/
theorem C8_witness :
    ∃ l, read_general_data adminA
        { devices := [{ id := 1, node_type := some "Router",
                        area_id := some 5 },
                      { id := 2, node_type := some "PON",
                        area_id := some 5 },
                      { id := 3, node_type := some "OLT", sw_id := some 9,
                        area_id := some 5 },
                      { id := 4, node_type := some "Switch",
                        area_id := some 5 }],
          edges := [{ id := 10, source_id := some 3, target_id := 4 }] } =
      .ok l ∧
      (∀ d, d ∈ l ↔
        d ∈ ({ devices := [{ id := 1, node_type := some "Router",
                             area_id := some 5 },
                           { id := 2, node_type := some "PON",
                             area_id := some 5 },
                           { id := 3, node_type := some "OLT",
                             sw_id := some 9, area_id := some 5 },
                           { id := 4, node_type := some "Switch",
                             area_id := some 5 }],
               edges := [{ id := 10, source_id := some 3,
                           target_id := 4 }] } : DB).devices ∧
          GeneralViewSpec
            { devices := [{ id := 1, node_type := some "Router",
                            area_id := some 5 },
                          { id := 2, node_type := some "PON",
                            area_id := some 5 },
                          { id := 3, node_type := some "OLT",
                            sw_id := some 9, area_id := some 5 },
                          { id := 4, node_type := some "Switch",
                            area_id := some 5 }],
              edges := [{ id := 10, source_id := some 3,
                          target_id := 4 }] } d ∧
          d.area_id = some 5) ∧
      (∀ d ∈ l, d.sw_id = none ∧ d.node_type ≠ some "PON" ∧
        d.node_type ≠ some "ONU" ∧ d.area_id = some 5) :=
  C8_general_view_exact adminA
    { devices := [{ id := 1, node_type := some "Router", area_id := some 5 },
                  { id := 2, node_type := some "PON", area_id := some 5 },
                  { id := 3, node_type := some "OLT", sw_id := some 9,
                    area_id := some 5 },
                  { id := 4, node_type := some "Switch",
                    area_id := some 5 }],
      edges := [{ id := 10, source_id := some 3, target_id := 4 }] }
    5 (Or.inl rfl) rfl (by decide)

/-! ## Claim C5 -/

theorem contains_iff (l : List Nat) (a : Nat) : l.contains a = true ↔ a ∈ l :=
  List.elem_iff

theorem contains_false_iff (l : List Nat) (a : Nat) :
    l.contains a = false ↔ a ∉ l := by
  constructor
  · intro h hm
    rw [(contains_iff l a).2 hm] at h
    cases h
  · intro h
    cases hc : l.contains a
    · rfl
    · exact absurd ((contains_iff l a).1 hc) h

/-- Spec wording: downward reachability of the rooted tree view — repeatedly
follow parent→child edges starting from the root, with the caller's area
filter applied at every level of the recursion (each expansion step starts
from an already-reached device of the caller's area). -/
inductive SpecDescends (db : DB) (ua : Nat) : Nat → Nat → Prop
  | refl (r : Nat) : SpecDescends db ua r r
  | step {r p c : Nat} (hp : SpecDescends db ua r p) (pd : Device)
      (hpd : pd ∈ db.devices) (hid : pd.id = p) (ha : pd.area_id = some ua)
      (e : Edge) (he : e ∈ db.edges) (hs : e.source_id = some p)
      (ht : e.target_id = c) : SpecDescends db ua r c

/-- Spec wording: a parentless-rooted node of the root's `sw_id` group in the
caller's area (every incoming edge, if any, carries no source). -/
def ParentlessGroupRoot (db : DB) (ua root : Nat) (s : Device) : Prop :=
  s.sw_id = some root ∧ s.area_id = some ua ∧
    ∀ e ∈ db.edges, e.target_id = s.id → e.source_id = none

theorem findDevice_mem {db : DB} {i : Nat} {d : Device}
    (h : findDevice db i = some d) : d ∈ db.devices ∧ d.id = i :=
  ⟨List.mem_of_find?_eq_some h, by simpa using List.find?_some h⟩

theorem findDevice_of_mem {db : DB}
    (hnodup : (db.devices.map Device.id).Nodup) {d : Device}
    (hd : d ∈ db.devices) : findDevice db d.id = some d := by
  rcases hx : db.devices.find? (fun x => x.id == d.id) with _ | x
  · have hsome : (db.devices.find? (fun x => x.id == d.id)).isSome :=
      List.find?_isSome.2 ⟨d, hd, by simp⟩
    rw [hx] at hsome
    cases hsome
  · obtain ⟨hxm, hxid⟩ := findDevice_mem hx
    have : x = d := List.inj_on_of_nodup_map hnodup hxm hd hxid
    rw [findDevice, hx, this]

theorem priorAreaOk_iff {db : DB} {ua p : Nat} :
    priorAreaOk db ua p = true ↔
      ∃ pd, findDevice db p = some pd ∧ pd.area_id = some ua := by
  rw [priorAreaOk]
  rcases h : findDevice db p with _ | pd
  · simp
  · simp only [beq_iff_eq]
    constructor
    · intro ha
      exact ⟨pd, rfl, ha⟩
    · rintro ⟨pd', hpd', ha⟩
      cases hpd'
      exact ha

theorem hierChildOk_iff {db : DB} {ua : Nat} {st : List Nat} {d : Device} :
    hierChildOk db ua st d = true ↔
      ∃ e ∈ db.edges, e.target_id = d.id ∧ ∃ p, e.source_id = some p ∧
        p ∈ st ∧ priorAreaOk db ua p = true := by
  rw [hierChildOk, List.any_eq_true]
  constructor
  · rintro ⟨e, he, hcond⟩
    rw [Bool.and_eq_true] at hcond
    obtain ⟨htgt, hrest⟩ := hcond
    rcases hsrc : e.source_id with _ | p <;> rw [hsrc] at hrest
    · cases hrest
    · dsimp only at hrest
      rw [Bool.and_eq_true] at hrest
      exact ⟨e, he, by simpa using htgt, p, hsrc,
        (contains_iff st p).1 hrest.1, hrest.2⟩
  · rintro ⟨e, he, htgt, p, hsrc, hps, hpa⟩
    refine ⟨e, he, ?_⟩
    rw [Bool.and_eq_true]
    refine ⟨by simpa using htgt, ?_⟩
    rw [hsrc]
    dsimp only
    rw [Bool.and_eq_true]
    exact ⟨(contains_iff st p).2 hps, hpa⟩

theorem mem_hierGrow {db : DB} {ua : Nat} {st : List Nat} {i : Nat} :
    i ∈ hierGrow db ua st ↔ i ∈ st ∨
      ∃ d ∈ db.devices, d.id = i ∧ i ∉ st ∧
        hierChildOk db ua st d = true := by
  rw [hierGrow, List.mem_append]
  apply or_congr Iff.rfl
  constructor
  · intro hmap
    obtain ⟨d, hdf, hid⟩ := List.mem_map.1 hmap
    rw [List.mem_filter] at hdf
    obtain ⟨hd, hcond⟩ := hdf
    rw [Bool.and_eq_true, Bool.not_eq_true'] at hcond
    obtain ⟨hnc, hok⟩ := hcond
    refine ⟨d, hd, hid, ?_, hok⟩
    rw [← hid]
    exact (contains_false_iff st d.id).1 hnc
  · rintro ⟨d, hd, hid, hni, hok⟩
    refine List.mem_map.2 ⟨d, ?_, hid⟩
    rw [List.mem_filter]
    refine ⟨hd, ?_⟩
    rw [Bool.and_eq_true, Bool.not_eq_true']
    refine ⟨(contains_false_iff st d.id).2 (hid ▸ hni), hok⟩

theorem hierClosure_succ (db : DB) (ua : Nat) (st : List Nat) (n : Nat) :
    hierClosure db ua st (n + 1) = hierGrow db ua (hierClosure db ua st n) :=
  rfl

theorem subset_hierClosure (db : DB) (ua : Nat) (st : List Nat) (n : Nat) :
    ∀ i ∈ st, i ∈ hierClosure db ua st n := by
  induction n with
  | zero => intro i hi; exact hi
  | succ n ih =>
    intro i hi
    rw [hierClosure_succ]
    exact mem_hierGrow.2 (Or.inl (ih i hi))

theorem hierClosure_mono {db : DB} {ua : Nat} {st : List Nat} {n m : Nat}
    (hnm : n ≤ m) :
    ∀ i ∈ hierClosure db ua st n, i ∈ hierClosure db ua st m := by
  induction m with
  | zero =>
    cases Nat.le_zero.1 hnm
    exact fun i hi => hi
  | succ m ih =>
    rcases Nat.lt_or_ge n (m + 1) with hlt | hge
    · intro i hi
      rw [hierClosure_succ]
      exact mem_hierGrow.2 (Or.inl (ih (Nat.lt_succ_iff.1 hlt) i hi))
    · have : n = m + 1 := Nat.le_antisymm hnm hge
      cases this
      exact fun i hi => hi

theorem hierClosure_subset_ids {db : DB} {ua : Nat} {st : List Nat}
    (hst : ∀ i ∈ st, i ∈ db.devices.map Device.id) (n : Nat) :
    ∀ i ∈ hierClosure db ua st n, i ∈ db.devices.map Device.id := by
  induction n with
  | zero => exact hst
  | succ n ih =>
    intro i hi
    rw [hierClosure_succ] at hi
    rcases mem_hierGrow.1 hi with h | ⟨d, hd, hid, _, _⟩
    · exact ih i h
    · exact List.mem_map.2 ⟨d, hd, hid⟩

theorem hierClosure_nodup {db : DB} {ua : Nat} {st : List Nat}
    (hnodup : (db.devices.map Device.id).Nodup) (hstn : st.Nodup) (n : Nat) :
    (hierClosure db ua st n).Nodup := by
  induction n with
  | zero => exact hstn
  | succ n ih =>
    rw [hierClosure_succ, hierGrow, List.nodup_append]
    refine ⟨ih, ?_, ?_⟩
    · exact hnodup.sublist
        ((List.filter_sublist db.devices).map Device.id)
    · intro a ha hb
      obtain ⟨d, hdf, hid⟩ := List.mem_map.1 hb
      rw [List.mem_filter] at hdf
      obtain ⟨_, hcond⟩ := hdf
      rw [Bool.and_eq_true, Bool.not_eq_true'] at hcond
      exact (contains_false_iff _ _).1 hcond.1 (hid ▸ ha)

theorem hierClosure_length_le {db : DB} {ua : Nat} {st : List Nat}
    (hnodup : (db.devices.map Device.id).Nodup) (hstn : st.Nodup)
    (hst : ∀ i ∈ st, i ∈ db.devices.map Device.id) (n : Nat) :
    (hierClosure db ua st n).length ≤ db.devices.length := by
  have h1 : (hierClosure db ua st n).Nodup := hierClosure_nodup hnodup hstn n
  have h2 := @hierClosure_subset_ids db ua st hst n
  calc (hierClosure db ua st n).length
      = (hierClosure db ua st n).toFinset.card :=
        (List.toFinset_card_of_nodup h1).symm
    _ ≤ (db.devices.map Device.id).toFinset.card := by
        apply Finset.card_le_card
        intro x hx
        exact List.mem_toFinset.2 (h2 x (List.mem_toFinset.1 hx))
    _ ≤ (db.devices.map Device.id).length := List.toFinset_card_le _
    _ = db.devices.length := List.length_map _ _

theorem hierClosure_eq_of_fix {db : DB} {ua : Nat} {st : List Nat} {k : Nat}
    (hfix : hierClosure db ua st (k + 1) = hierClosure db ua st k) :
    ∀ m, k ≤ m → hierClosure db ua st m = hierClosure db ua st k := by
  intro m
  induction m with
  | zero =>
    intro hm
    cases Nat.le_zero.1 hm
    rfl
  | succ m ih =>
    intro hm
    rcases Nat.lt_or_ge k (m + 1) with hlt | hge
    · have hkm : k ≤ m := Nat.lt_succ_iff.1 hlt
      rw [hierClosure_succ, ih hkm, ← hierClosure_succ, hfix]
    · have : k = m + 1 := Nat.le_antisymm hm hge
      rw [this]

theorem hierClosure_stabilizes {db : DB} {ua : Nat} {st : List Nat}
    (hnodup : (db.devices.map Device.id).Nodup) (hstn : st.Nodup)
    (hst : ∀ i ∈ st, i ∈ db.devices.map Device.id) :
    ∃ k ≤ db.devices.length,
      hierClosure db ua st (k + 1) = hierClosure db ua st k := by
  by_contra hno
  push_neg at hno
  have hgrow : ∀ k, k ≤ db.devices.length + 1 →
      k ≤ (hierClosure db ua st k).length := by
    intro k
    induction k with
    | zero => intro _; exact Nat.zero_le _
    | succ k ih =>
      intro hk
      have hkF : k ≤ db.devices.length := Nat.lt_succ_iff.1 hk
      have hne := hno k hkF
      have hbne : (db.devices.filter (fun d =>
          !((hierClosure db ua st k).contains d.id) &&
            hierChildOk db ua (hierClosure db ua st k) d)).map
          (fun d => d.id) ≠ [] := by
        intro h0
        apply hne
        rw [hierClosure_succ, hierGrow, h0, List.append_nil]
      have hpos : 0 < ((db.devices.filter (fun d =>
          !((hierClosure db ua st k).contains d.id) &&
            hierChildOk db ua (hierClosure db ua st k) d)).map
          (fun d => d.id)).length := List.length_pos.2 hbne
      have hlen : (hierClosure db ua st (k + 1)).length =
          (hierClosure db ua st k).length +
            ((db.devices.filter (fun d =>
              !((hierClosure db ua st k).contains d.id) &&
                hierChildOk db ua (hierClosure db ua st k) d)).map
              (fun d => d.id)).length := by
        rw [hierClosure_succ, hierGrow, List.length_append]
      have := ih (Nat.le_of_succ_le hk)
      omega

  have hbig := hgrow (db.devices.length + 1) (Nat.le_refl _)
  have hsmall := @hierClosure_length_le db ua st hnodup hstn hst
    (db.devices.length + 1)
  omega

theorem hierClosure_fix_at_length {db : DB} {ua : Nat} {st : List Nat}
    (hnodup : (db.devices.map Device.id).Nodup) (hstn : st.Nodup)
    (hst : ∀ i ∈ st, i ∈ db.devices.map Device.id) :
    hierGrow db ua (hierClosure db ua st db.devices.length) =
      hierClosure db ua st db.devices.length := by
  obtain ⟨k, hk, hfix⟩ := hierClosure_stabilizes hnodup hstn hst
  have h1 : hierClosure db ua st db.devices.length =
      hierClosure db ua st k := hierClosure_eq_of_fix hfix _ hk
  rw [h1, ← hierClosure_succ, hfix]

theorem hierClosure_sound {db : DB} {ua : Nat} {st : List Nat} (n : Nat) :
    ∀ i ∈ hierClosure db ua st n,
      ∃ s0 ∈ st, SpecDescends db ua s0 i := by
  induction n with
  | zero => exact fun i hi => ⟨i, hi, SpecDescends.refl i⟩
  | succ n ih =>
    intro i hi
    rw [hierClosure_succ] at hi
    rcases mem_hierGrow.1 hi with h | ⟨d, hd, hid, _, hok⟩
    · exact ih i h
    · obtain ⟨e, he, htgt, p, hsrc, hps, hpa⟩ := hierChildOk_iff.1 hok
      obtain ⟨pd, hfpd, hpda⟩ := priorAreaOk_iff.1 hpa
      obtain ⟨hpdm, hpdid⟩ := findDevice_mem hfpd
      obtain ⟨s0, hs0, hdesc⟩ := ih p hps
      exact ⟨s0, hs0, SpecDescends.step hdesc pd hpdm hpdid hpda e he hsrc
        (by rw [htgt, hid])⟩

theorem hierClosure_complete {db : DB} {ua : Nat} {st : List Nat}
    (hnodup : (db.devices.map Device.id).Nodup) (hstn : st.Nodup)
    (hst : ∀ i ∈ st, i ∈ db.devices.map Device.id)
    {s0 i : Nat} (hdesc : SpecDescends db ua s0 i) :
    s0 ∈ st → ∀ d ∈ db.devices, d.id = i →
      i ∈ hierClosure db ua st db.devices.length := by
  have hfix := @hierClosure_fix_at_length db ua st hnodup hstn hst
  induction hdesc with
  | refl =>
    intro hs0 d hd hdi
    exact subset_hierClosure db ua st db.devices.length _ hs0
  | step hp pd hpd hid ha e he hs ht ih =>
    intro hs0 d hd hdi
    have hpc := ih hs0 pd hpd hid
    have hok : hierChildOk db ua
        (hierClosure db ua st db.devices.length) d = true := by
      refine hierChildOk_iff.2 ⟨e, he, by rw [ht, hdi], _, hs, hpc, ?_⟩
      refine priorAreaOk_iff.2 ⟨pd, ?_, ha⟩
      rw [← hid]
      exact findDevice_of_mem hnodup hpd
    by_cases hin : d.id ∈ hierClosure db ua st db.devices.length
    · rw [← hdi]; exact hin
    · have : d.id ∈ hierGrow db ua (hierClosure db ua st db.devices.length) :=
        mem_hierGrow.2 (Or.inr ⟨d, hd, rfl, hin, hok⟩)
      rw [hfix] at this
      rw [← hdi]
      exact this

theorem filterMapId_nodup (db : DB) (q : Device → Bool)
    (hnodup : (db.devices.map Device.id).Nodup) :
    ((db.devices.filter q).map (fun d => d.id)).Nodup :=
  hnodup.sublist ((List.filter_sublist db.devices).map Device.id)

theorem filterMapId_ids (db : DB) (q : Device → Bool) :
    ∀ i ∈ (db.devices.filter q).map (fun d => d.id),
      i ∈ db.devices.map Device.id := by
  intro i hi
  obtain ⟨d, hdf, hid⟩ := List.mem_map.1 hi
  exact List.mem_map.2 ⟨d, (List.mem_filter.1 hdf).1, hid⟩

theorem mem_startRoot {db : DB} {root i : Nat} :
    i ∈ startRoot db root ↔ i = root ∧ ∃ d ∈ db.devices, d.id = root := by
  rw [startRoot]
  constructor
  · intro h
    obtain ⟨d, hdf, hid⟩ := List.mem_map.1 h
    rw [List.mem_filter] at hdf
    obtain ⟨hd, hc⟩ := hdf
    rw [beq_iff_eq] at hc
    exact ⟨by rw [← hid, hc], d, hd, hc⟩
  · rintro ⟨rfl, d, hd, hdi⟩
    refine List.mem_map.2 ⟨d, ?_, hdi⟩
    rw [List.mem_filter]
    exact ⟨hd, by simp [hdi]⟩

theorem mem_startOrphan {db : DB} {ua root i : Nat} :
    i ∈ startOrphan db ua root ↔
      ∃ s ∈ db.devices, s.id = i ∧ isOrphanStart db ua root s = true := by
  rw [startOrphan]
  constructor
  · intro h
    obtain ⟨s, hsf, hid⟩ := List.mem_map.1 h
    rw [List.mem_filter] at hsf
    exact ⟨s, hsf.1, hid, hsf.2⟩
  · rintro ⟨s, hs, hid, horph⟩
    refine List.mem_map.2 ⟨s, ?_, hid⟩
    rw [List.mem_filter]
    exact ⟨hs, horph⟩

/-- Under the forest invariant the code's orphan start predicate coincides
with the claim's "parentless node of the root's group" wording. -/
theorem isOrphanStart_iff {db : DB} {ua root : Nat}
    (hforest : singleParent db) (s : Device) :
    isOrphanStart db ua root s = true ↔ ParentlessGroupRoot db ua root s := by
  rw [isOrphanStart, ParentlessGroupRoot]
  simp only [Bool.and_eq_true, beq_iff_eq, Bool.or_eq_true,
    Bool.not_eq_true', List.any_eq_false, List.any_eq_true]
  constructor
  · rintro ⟨⟨hsw, hA⟩, hrest⟩
    refine ⟨hsw, hA, ?_⟩
    intro e he htgt
    rcases hrest with hno | ⟨e2, he2, hcond⟩
    · exact absurd (by simpa using htgt) (hno e he)
    · obtain ⟨htgt2, hsrc2⟩ := hcond
      have : e = e2 := singleParent_unique hforest he he2 (by rw [htgt, htgt2])
      rw [this, hsrc2]
  · rintro ⟨hsw, hA, hall⟩
    refine ⟨⟨hsw, hA⟩, ?_⟩
    by_cases hinc : ∃ e ∈ db.edges, e.target_id = s.id
    · right
      obtain ⟨e, he, htgt⟩ := hinc
      exact ⟨e, he, htgt, hall e he htgt⟩
    · left
      push_neg at hinc
      intro e he
      simpa using hinc e he

/-- C5: for a role-2/3 caller of area `ua` and an owned root, the rooted tree
view returns exactly the devices of the caller's area that are reachable by
the area-filtered parent→child descent from the root or from some
parentless-rooted member of the root's `sw_id` group; every returned row has
the caller's area. -/
theorem C5_rooted_view_exact (u : User) (db : DB) (root ua : Nat)
    (r : Device)
    (hrole : u.role_id = 2 ∨ u.role_id = 3) (harea : u.area_id = some ua)
    (hnodup : (db.devices.map Device.id).Nodup)
    (hforest : singleParent db)
    (hroot : findDevice db root = some r) (hrarea : r.area_id = some ua) :
    ∃ l, read_data u db root = .ok l ∧
      (∀ d, d ∈ l ↔ d ∈ db.devices ∧ d.area_id = some ua ∧
        (SpecDescends db ua root d.id ∨
          ∃ s ∈ db.devices, ParentlessGroupRoot db ua root s ∧
            SpecDescends db ua s.id d.id)) ∧
      (∀ d ∈ l, d.area_id = some ua) := by
  have hrole' : (u.role_id != 2 && u.role_id != 3) = false := by
    rcases hrole with h | h <;> simp [h]
  have hown : ownershipOk db ua root = true := by
    rw [ownershipOk, hroot]
    simp [hrarea]
  refine ⟨db.devices.filter (fun d =>
    (treeMembers db ua root).contains d.id && d.area_id == some ua),
    ?_, ?_, ?_⟩
  · rw [read_data, if_neg (by simp [hrole']), harea]
    dsimp only
    rw [if_pos hown]
  · intro d
    rw [List.mem_filter, Bool.and_eq_true, beq_iff_eq]
    constructor
    · rintro ⟨hd, hcont, harea'⟩
      refine ⟨hd, harea', ?_⟩
      have hmem := (contains_iff _ _).1 hcont
      rw [treeMembers, List.mem_append] at hmem
      rcases hmem with hA | hB
      · obtain ⟨s0, hs0, hdesc⟩ := hierClosure_sound _ _ hA
        obtain ⟨hs0eq, -⟩ := mem_startRoot.1 hs0
        exact Or.inl (hs0eq ▸ hdesc)
      · obtain ⟨s0, hs0, hdesc⟩ := hierClosure_sound _ _ hB
        obtain ⟨s, hsmem, hsid, hsorph⟩ := mem_startOrphan.1 hs0
        exact Or.inr ⟨s, hsmem, (isOrphanStart_iff hforest s).1 hsorph,
          hsid ▸ hdesc⟩
    · rintro ⟨hd, harea', hreach⟩
      refine ⟨hd, ?_, harea'⟩
      apply (contains_iff _ _).2
      rw [treeMembers, List.mem_append]
      rcases hreach with hdesc | ⟨s, hsmem, hsorph, hdesc⟩
      · left
        have hrm := findDevice_mem hroot
        exact hierClosure_complete hnodup
          (filterMapId_nodup db _ hnodup) (filterMapId_ids db _) hdesc
          (mem_startRoot.2 ⟨rfl, r, hrm.1, hrm.2⟩) d hd rfl
      · right
        exact hierClosure_complete hnodup
          (filterMapId_nodup db _ hnodup) (filterMapId_ids db _) hdesc
          (mem_startOrphan.2 ⟨s, hsmem, rfl,
            (isOrphanStart_iff hforest s).2 hsorph⟩) d hd rfl
  · intro d hd
    rw [List.mem_filter, Bool.and_eq_true, beq_iff_eq] at hd
    exact hd.2.2

/-- Fixture: root 1 with child 2, plus a parentless device 4 of the root's
`sw_id` group with its own child 5, all in area 5. -/
def dbTree : DB :=
  { devices := [{ id := 1, node_type := some "Router", area_id := some 5 },
                { id := 2, area_id := some 5 },
                { id := 4, sw_id := some 1, area_id := some 5 },
                { id := 5, area_id := some 5 }],
    edges := [{ id := 10, source_id := some 1, target_id := 2 },
              { id := 11, source_id := some 4, target_id := 5 }] }

/-- Witness for C5 at `dbTree` rooted at device 1. -/
theorem C5_witness :
    ∃ l, read_data adminA dbTree 1 = .ok l ∧
      (∀ d, d ∈ l ↔ d ∈ dbTree.devices ∧ d.area_id = some 5 ∧
        (SpecDescends dbTree 5 1 d.id ∨
          ∃ s ∈ dbTree.devices, ParentlessGroupRoot dbTree 5 1 s ∧
            SpecDescends dbTree 5 s.id d.id)) ∧
      (∀ d ∈ l, d.area_id = some 5) :=
  C5_rooted_view_exact adminA dbTree 1 5
    { id := 1, node_type := some "Router", area_id := some 5 }
    (Or.inl rfl) rfl (by decide) (by decide) (by decide) rfl

end Bnetdiag
